import Mathlib

/-!
Shallow embedding of the spotify-mcp server core (src/index.ts):
the credential manager (ensureValidToken / authenticate), the call
governor (withRateLimit) and the tool dispatcher (the CallToolRequest
handler).  Times are absolute milliseconds modelled as Int (JS
Date.now).  Remote effects (the Spotify client, the refresh and grant
exchanges) are passed in as explicit outcome oracles, and each model
function reports the counts of the effects the real code would perform
(refresh exchanges, interactive grants, governed remote invocations).
-/

/-- MCP SDK error codes used by the source. -/
inductive ErrorCode
  | InvalidRequest
  | MethodNotFound
  | InvalidParams
  | InternalError
deriving DecidableEq, Repr

/-- Errors flowing through the handler: remote HTTP errors carrying a
statusCode, generic JS runtime errors, and McpError protocol errors. -/
inductive SpotifyError
  | http (statusCode : Int) (message : String)
  | js (message : String)
  | mcp (code : ErrorCode) (message : String)
deriving DecidableEq, Repr

/-- The message property every JS error carries. -/
def SpotifyError.message : SpotifyError → String
  | .http _ m => m
  | .js m => m
  | .mcp _ m => m

/-- The statusCode property read by withRateLimit; only remote HTTP
errors have one (error.statusCode is undefined otherwise). -/
def SpotifyError.statusCode? : SpotifyError → Option Int
  | .http s _ => some s
  | .js _ => none
  | .mcp _ _ => none

/-- The instanceof McpError test of the dispatcher catch block. -/
def SpotifyError.isMcp : SpotifyError → Bool
  | .mcp _ _ => true
  | _ => false

/-- Endpoint classes of the rate-limit ledger (the keys of
rateLimitResets). -/
inductive Endpoint
  | search
  | playback
deriving DecidableEq, Repr

/-- Endpoint name as interpolated into the rate-limit error message. -/
def Endpoint.name : Endpoint → String
  | .search => "search"
  | .playback => "playback"

/-- The rateLimitResets map: per endpoint class, the absolute time
before which calls must not be issued (initialized to 0 for both). -/
structure Ledger where
  search : Int
  playback : Int
deriving DecidableEq, Repr

def Ledger.get : Ledger → Endpoint → Int
  | led, .search => led.search
  | led, .playback => led.playback

def Ledger.set : Ledger → Endpoint → Int → Ledger
  | led, .search, v => { led with search := v }
  | led, .playback, v => { led with playback := v }

/-- Outcome oracle for one invocation of a governed remote operation. -/
inductive OpOutcome (α : Type)
  | ok (a : α)
  | err (e : SpotifyError)
deriving DecidableEq, Repr

deriving instance DecidableEq for Except

/-- Result of withRateLimit: the ledger after the call, the absolute
time at which the operation was invoked (after any cooldown wait), how
many times the operation was invoked, and the outcome. -/
structure RLResult (α : Type) where
  ledger : Ledger
  invokeTime : Int
  calls : Nat
  outcome : Except SpotifyError α
deriving DecidableEq, Repr

/-- Model of withRateLimit (src/index.ts lines 33-58).  now is
Date.now() captured at entry; if now is before the class reset time the
caller sleeps until resetTime + 1000 (the 1 second buffer) and only then
invokes fn.  On success the reset time is set to now + 10000; on an
error whose statusCode is 429 it is set to now + 60000 and an McpError
InvalidRequest is thrown; any other error is rethrown unchanged.  Note
that both updates use the entry-time now, not the post-wait time. -/
def withRateLimit {α : Type} (endpoint : Endpoint) (now : Int)
    (led : Ledger) (op : OpOutcome α) : RLResult α :=
  let resetTime := led.get endpoint
  let invokeTime := if now < resetTime then resetTime + 1000 else now
  match op with
  | .ok a => ⟨led.set endpoint (now + 10 * 1000), invokeTime, 1, .ok a⟩
  | .err e =>
      if e.statusCode? = some 429 then
        ⟨led.set endpoint (now + 60 * 1000), invokeTime, 1,
          .error (.mcp .InvalidRequest
            ("Rate limit exceeded for " ++ endpoint.name ++
             ". Please try again in 1 minute."))⟩
      else
        ⟨led, invokeTime, 1, .error e⟩

/-- Credential state owned by the SpotifyMcpServer instance: the
token expiration bookkeeping plus the Spotify client's token slots.
hasRefreshToken is the truthiness of spotifyApi.getRefreshToken(). -/
structure TokenState where
  tokenExpirationTime : Int
  accessToken : String
  refreshToken : String
  hasRefreshToken : Bool
deriving DecidableEq, Repr

/-- Outcome oracle for one spotifyApi.refreshAccessToken() exchange:
the new access_token and expires_in seconds, or a rejection. -/
inductive RefreshOutcome
  | ok (accessToken : String) (expiresIn : Int)
  | err (e : SpotifyError)
deriving DecidableEq, Repr

/-- Data delivered by a successful interactive grant (browser flow,
callback code, authorizationCodeGrant exchange). -/
structure GrantData where
  accessToken : String
  refreshToken : String
  expiresIn : Int
deriving DecidableEq, Repr

/-- Outcome oracle for one full authenticate() run. -/
inductive GrantOutcome
  | ok (g : GrantData)
  | err (e : SpotifyError)
deriving DecidableEq, Repr

/-- Model of authenticate (src/index.ts lines 335-360) applied to a
successful grant: sets both tokens and the expiration time
now + expires_in * 1000 - 60000 (1 minute safety margin). -/
def authenticate (now : Int) (st : TokenState) (g : GrantData) : TokenState :=
  { st with
    accessToken := g.accessToken
    refreshToken := g.refreshToken
    hasRefreshToken := true
    tokenExpirationTime := now + g.expiresIn * 1000 - 60000 }

/-- Result of one ensureValidToken run: the credential state after it,
how many refresh exchanges and how many interactive grants it
performed, and whether it completed or threw. -/
structure EnsureResult where
  state : TokenState
  refreshCalls : Nat
  grantCalls : Nat
  outcome : Except SpotifyError Unit
deriving DecidableEq, Repr

/-- Model of ensureValidToken (src/index.ts lines 310-332).  If the
token expires within the 5 minute margin (now ≥ expiration - 300000):
with a refresh token present it runs one refreshAccessToken exchange
and on success installs the new token with expiration
now + expires_in * 1000 - 60000; if the refresh rejects, the catch
falls back to one interactive authenticate; with no refresh token it
goes straight to authenticate.  A fresh token short-circuits with no
effect.  A failed grant leaves the state unmutated (the exchange
rejects before any token is stored) and propagates the error. -/
def ensureValidToken (now : Int) (st : TokenState) (r : RefreshOutcome)
    (g : GrantOutcome) : EnsureResult :=
  if st.tokenExpirationTime - 5 * 60 * 1000 ≤ now then
    if st.hasRefreshToken then
      match r with
      | .ok tok expiresIn =>
          ⟨{ st with
              accessToken := tok
              tokenExpirationTime := now + expiresIn * 1000 - 60000 },
            1, 0, .ok ()⟩
      | .err _ =>
          match g with
          | .ok gd => ⟨authenticate now st gd, 1, 1, .ok ()⟩
          | .err e => ⟨st, 1, 1, .error e⟩
    else
      match g with
      | .ok gd => ⟨authenticate now st gd, 0, 1, .ok ()⟩
      | .err e => ⟨st, 0, 1, .error e⟩
  else
    ⟨st, 0, 0, .ok ()⟩

/-- Spotify track album subobject (name and release_date fields read by
the search_tracks projection). -/
structure Album where
  name : String
  release_date : String
deriving DecidableEq, Repr

/-- Spotify artist subobject. -/
structure Artist where
  name : String
deriving DecidableEq, Repr

/-- Spotify track object, with the fields the dispatcher reads. -/
structure Track where
  name : String
  artists : List Artist
  album : Album
  popularity : Int
  id : String
  uri : String
deriving DecidableEq, Repr

/-- The seven-field summary built per track by the search_tracks
handler (src/index.ts lines 199-207), with the exact source keys. -/
structure TrackSummary where
  name : String
  artist : String
  albumName : String
  releaseDate : String
  popularity : Int
  id : String
  uri : String
deriving DecidableEq, Repr

/-- One track's projection; track.artists[0].name throws a TypeError
in JS when artists is empty, modelled as none. -/
def projectTrack (t : Track) : Option TrackSummary :=
  match t.artists with
  | [] => none
  | a :: _ => some ⟨t.name, a.name, t.album.name, t.album.release_date,
      t.popularity, t.id, t.uri⟩

/-- Total form of the projection, valid when artists is nonempty. -/
def projectTrackTotal (t : Track) : TrackSummary :=
  ⟨t.name, (t.artists.headD ⟨""⟩).name, t.album.name, t.album.release_date,
    t.popularity, t.id, t.uri⟩

/-- The .map over the result items: JS throws out of the callback at
the first track whose artists array is empty, so the whole mapping
fails if any element does. -/
def mapProject : List Track → Option (List TrackSummary)
  | [] => some []
  | t :: ts =>
      match projectTrack t, mapProject ts with
      | some s, some l => some (s :: l)
      | _, _ => none

/-- body.tracks of a search response (modelled as its items list). -/
structure TracksPage where
  items : List Track
deriving DecidableEq, Repr

/-- searchResult.body: tracks may be absent (tracks?.items). -/
structure SearchBody where
  tracks : Option TracksPage
deriving DecidableEq, Repr

/-- Spotify playlist object, with the fields the dispatcher reads. -/
structure PlaylistTracksRef where
  total : Int
deriving DecidableEq, Repr

structure Playlist where
  name : String
  id : String
  tracks : PlaylistTracksRef
  uri : String
  isPublic : Bool
deriving DecidableEq, Repr

/-- The summary built per playlist by get_user_playlists
(src/index.ts lines 258-264). -/
structure PlaylistSummary where
  name : String
  id : String
  trackCount : Int
  uri : String
  isPublic : Bool
deriving DecidableEq, Repr

def projectPlaylist (p : Playlist) : PlaylistSummary :=
  ⟨p.name, p.id, p.tracks.total, p.uri, p.isPublic⟩

/-- playlistResult.body (its items list). -/
structure PlaylistsBody where
  items : List Playlist
deriving DecidableEq, Repr

/-- The loosely-typed argument bag of a tool call; absent properties
are none (JS undefined). -/
structure Args where
  query : Option String := none
  uri : Option String := none
  limit : Option Int := none
deriving DecidableEq, Repr

/-- An incoming CallToolRequest: request.params.name and
request.params.arguments (the whole bag may be undefined). -/
structure Request where
  name : String
  arguments : Option Args
deriving DecidableEq, Repr

/-- Outcome oracles for the five governed remote operations; the
search and play oracles receive the (possibly undefined) argument the
dispatcher forwards, searchTracks also the limit option (always 5). -/
structure Remote where
  searchTracks : Option String → Int → OpOutcome SearchBody
  getMyCurrentPlaybackState : OpOutcome (Option String)
  play : Option String → OpOutcome Unit
  getUserPlaylists : Int → OpOutcome PlaylistsBody
  pause : OpOutcome Unit

/-- The JSON text payload of a successful tool response, modelled
structurally instead of as a serialized string. -/
inductive Payload
  | trackList (l : List TrackSummary)
  | undefinedText
  | playbackState (s : String)
  | noActivePlayback
  | playStatus (uri : Option String)
  | playlists (l : List PlaylistSummary)
  | paused
deriving DecidableEq, Repr

/-- The dispatcher catch block (src/index.ts lines 297-305): an
McpError is rethrown unchanged, every other error is re-wrapped as
McpError InternalError with the original message appended to the
Spotify API error prefix. -/
def wrapError (e : SpotifyError) : SpotifyError :=
  match e with
  | .mcp c m => .mcp c m
  | e => .mcp .InternalError ("Spotify API error: " ++ e.message)

/-- Result of one CallToolRequest: final credential state and ledger,
effect counts (refresh exchanges, interactive grants, governed remote
invocations) and the response or thrown McpError. -/
structure CallResult where
  state : TokenState
  ledger : Ledger
  refreshCalls : Nat
  grantCalls : Nat
  governedCalls : Nat
  response : Except SpotifyError Payload
deriving DecidableEq, Repr

/-- Model of the CallToolRequest handler (src/index.ts lines 186-306).
ensureValidToken runs first, before the switch on the tool name; there
is no argument validation, the handler destructures the argument bag
(throwing a TypeError when the bag itself is undefined) and forwards
possibly-undefined fields to the governed operation.  The default
switch branch throws McpError MethodNotFound.  Every thrown error
passes through wrapError on the way out. -/
def callTool (req : Request) (st : TokenState) (led : Ledger) (now : Int)
    (r : RefreshOutcome) (g : GrantOutcome) (rem : Remote) : CallResult :=
  let ens := ensureValidToken now st r g
  match ens.outcome with
  | .error e =>
      ⟨ens.state, led, ens.refreshCalls, ens.grantCalls, 0,
        .error (wrapError e)⟩
  | .ok _ =>
    if req.name = "search_tracks" then
      match req.arguments with
      | none =>
          ⟨ens.state, led, ens.refreshCalls, ens.grantCalls, 0,
            .error (wrapError (.js "Cannot destructure property"))⟩
      | some args =>
          let rl := withRateLimit .search now led (rem.searchTracks args.query 5)
          match rl.outcome with
          | .ok body =>
              match body.tracks with
              | none =>
                  ⟨ens.state, rl.ledger, ens.refreshCalls, ens.grantCalls,
                    rl.calls, .ok .undefinedText⟩
              | some page =>
                  match mapProject page.items with
                  | some summaries =>
                      ⟨ens.state, rl.ledger, ens.refreshCalls, ens.grantCalls,
                        rl.calls, .ok (.trackList summaries)⟩
                  | none =>
                      ⟨ens.state, rl.ledger, ens.refreshCalls, ens.grantCalls,
                        rl.calls,
                        .error (wrapError (.js "Cannot read properties of undefined"))⟩
          | .error e =>
              ⟨ens.state, rl.ledger, ens.refreshCalls, ens.grantCalls,
                rl.calls, .error (wrapError e)⟩
    else if req.name = "get_playback_state" then
      let rl := withRateLimit .playback now led rem.getMyCurrentPlaybackState
      match rl.outcome with
      | .ok body =>
          match body with
          | some s =>
              ⟨ens.state, rl.ledger, ens.refreshCalls, ens.grantCalls,
                rl.calls, .ok (.playbackState s)⟩
          | none =>
              ⟨ens.state, rl.ledger, ens.refreshCalls, ens.grantCalls,
                rl.calls, .ok .noActivePlayback⟩
      | .error e =>
          ⟨ens.state, rl.ledger, ens.refreshCalls, ens.grantCalls,
            rl.calls, .error (wrapError e)⟩
    else if req.name = "play_track" then
      match req.arguments with
      | none =>
          ⟨ens.state, led, ens.refreshCalls, ens.grantCalls, 0,
            .error (wrapError (.js "Cannot destructure property"))⟩
      | some args =>
          let rl := withRateLimit .playback now led (rem.play args.uri)
          match rl.outcome with
          | .ok _ =>
              ⟨ens.state, rl.ledger, ens.refreshCalls, ens.grantCalls,
                rl.calls, .ok (.playStatus args.uri)⟩
          | .error e =>
              ⟨ens.state, rl.ledger, ens.refreshCalls, ens.grantCalls,
                rl.calls, .error (wrapError e)⟩
    else if req.name = "get_user_playlists" then
      match req.arguments with
      | none =>
          ⟨ens.state, led, ens.refreshCalls, ens.grantCalls, 0,
            .error (wrapError (.js "Cannot destructure property"))⟩
      | some args =>
          let rl := withRateLimit .search now led
            (rem.getUserPlaylists (args.limit.getD 20))
          match rl.outcome with
          | .ok body =>
              ⟨ens.state, rl.ledger, ens.refreshCalls, ens.grantCalls,
                rl.calls, .ok (.playlists (body.items.map projectPlaylist))⟩
          | .error e =>
              ⟨ens.state, rl.ledger, ens.refreshCalls, ens.grantCalls,
                rl.calls, .error (wrapError e)⟩
    else if req.name = "pause_playback" then
      let rl := withRateLimit .playback now led rem.pause
      match rl.outcome with
      | .ok _ =>
          ⟨ens.state, rl.ledger, ens.refreshCalls, ens.grantCalls,
            rl.calls, .ok .paused⟩
      | .error e =>
          ⟨ens.state, rl.ledger, ens.refreshCalls, ens.grantCalls,
            rl.calls, .error (wrapError e)⟩
    else
      ⟨ens.state, led, ens.refreshCalls, ens.grantCalls, 0,
        .error (.mcp .MethodNotFound ("Unknown tool: " ++ req.name))⟩

/-- The three environment variables read at startup; none means the
variable is unset. -/
structure Env where
  SPOTIFY_CLIENT_ID : Option String
  SPOTIFY_CLIENT_SECRET : Option String
  SPOTIFY_REDIRECT_URI : Option String
deriving DecidableEq, Repr

/-- The SpotifyWebApi constructor options. -/
structure SpotifyConfig where
  clientId : String
  clientSecret : String
  redirectUri : String
deriving DecidableEq, Repr

/-- Model of the spotifyApi client construction (src/index.ts lines
20-24): each missing variable is defaulted with the nullish-coalescing
operator; construction is total and never signals a failure. -/
def spotifyApiConfig (env : Env) : SpotifyConfig :=
  { clientId := env.SPOTIFY_CLIENT_ID.getD ""
    clientSecret := env.SPOTIFY_CLIENT_SECRET.getD ""
    redirectUri := env.SPOTIFY_REDIRECT_URI.getD "http://localhost:8888/callback" }

/-- Where one ensureValidToken task stands relative to its single await
point (the refreshAccessToken exchange): not yet started, past the
synchronous staleness check (remembering its outcome), or finished. -/
inductive TaskPhase
  | start
  | checked (stale : Bool)
  | finished
deriving DecidableEq, Repr

/-- Shared state for two interleaved ensureValidToken calls (stale
token, refresh token present, refresh succeeding): the shared
tokenExpirationTime, the count of refresh exchanges performed, and each
task's phase. -/
structure TwoTasks where
  exp : Int
  refreshCalls : Nat
  taskA : TaskPhase
  taskB : TaskPhase
deriving DecidableEq, Repr

/-- One cooperative step of a task: the staleness check (a synchronous
read of tokenExpirationTime followed by the branch) or the completion
of the awaited refresh exchange (which increments the count and
installs the new expiration time).  A task that found the token fresh
finishes without any exchange. -/
def stepTask (now newExp : Int) (ph : TaskPhase) (exp : Int) (rc : Nat) :
    TaskPhase × Int × Nat :=
  match ph with
  | .start => (.checked (decide (exp - 5 * 60 * 1000 ≤ now)), exp, rc)
  | .checked true => (.finished, newExp, rc + 1)
  | .checked false => (.finished, exp, rc)
  | .finished => (.finished, exp, rc)

/-- Run two interleaved ensureValidToken calls under a schedule: true
picks task A for the next cooperative step, false picks task B. -/
def runTwo (now newExp : Int) : List Bool → TwoTasks → TwoTasks
  | [], s => s
  | pick :: rest, s =>
      if pick then
        let (ph, e, rc) := stepTask now newExp s.taskA s.exp s.refreshCalls
        runTwo now newExp rest { s with taskA := ph, exp := e, refreshCalls := rc }
      else
        let (ph, e, rc) := stepTask now newExp s.taskB s.exp s.refreshCalls
        runTwo now newExp rest { s with taskB := ph, exp := e, refreshCalls := rc }

/-- Run a sequence of governed calls in one endpoint class: each event
is the entry time Date.now() of that call and the outcome of its
operation; the trace records the ledger value for the class after each
call. -/
def runCalls (ep : Endpoint) : Ledger → List (Int × OpOutcome Unit) → List Int
  | _, [] => []
  | led, (now, op) :: rest =>
      let rl := withRateLimit ep now led op
      rl.ledger.get ep :: runCalls ep rl.ledger rest

/-- A call sequence in which every call enters no earlier than 10
seconds before the end of the class cooldown then current (in
particular any sequence in which no call has to wait). -/
def withinCooldownSlack (ep : Endpoint) : Ledger → List (Int × OpOutcome Unit) → Prop
  | _, [] => True
  | led, (now, op) :: rest =>
      led.get ep ≤ now + 10 * 1000 ∧
        withinCooldownSlack ep (withRateLimit ep now led op).ledger rest

/-! Concrete fixtures used by witnesses and counterexamples. -/

/-- A stale credential state (expiration long past) holding a refresh
token. -/
def staleState : TokenState := ⟨0, "oldAccess", "refresh1", true⟩

/-- The startup ledger (both classes unrestricted). -/
def ledger0 : Ledger := ⟨0, 0⟩

/-- A successful refresh outcome. -/
def refreshOk : RefreshOutcome := .ok "newAccess" 3600

/-- A successful grant outcome. -/
def grantOk : GrantOutcome := .ok ⟨"grantAccess", "grantRefresh", 3600⟩

/-- A remote in which every operation succeeds with an empty body. -/
def remEmptyOk : Remote where
  searchTracks := fun _ _ => .ok ⟨some ⟨[]⟩⟩
  getMyCurrentPlaybackState := .ok none
  play := fun _ => .ok ()
  getUserPlaylists := fun _ => .ok ⟨[]⟩
  pause := .ok ()

/-- A one-track search result fixture. -/
def beatlesTrack : Track :=
  ⟨"Let It Be", [⟨"The Beatles"⟩], ⟨"Let It Be", "1970-05-08"⟩, 82,
    "7iN1s7xHE4ifF5povM6A48", "spotify:track:7iN1s7xHE4ifF5povM6A48"⟩

/-- A remote whose search returns the one-track fixture. -/
def remOneTrack : Remote where
  searchTracks := fun _ _ => .ok ⟨some ⟨[beatlesTrack]⟩⟩
  getMyCurrentPlaybackState := .ok none
  play := fun _ => .ok ()
  getUserPlaylists := fun _ => .ok ⟨[]⟩
  pause := .ok ()

/-- The dispatcher run behind the C1 counterexample: search_tracks
with an argument bag that lacks query, on a stale credential state. -/
def missingQueryRun : CallResult :=
  callTool ⟨"search_tracks", some ⟨none, none, none⟩⟩ staleState ledger0
    1000000 refreshOk grantOk remEmptyOk

/-- The dispatcher run behind the C2 counterexample: an unknown tool
name on a stale credential state. -/
def unknownToolRun : CallResult :=
  callTool ⟨"foo_bar", some ⟨none, none, none⟩⟩ staleState ledger0
    1000000 refreshOk grantOk remEmptyOk

/-- A stale credential state with no refresh token (forces the
interactive grant path). -/
def noTokenState : TokenState := ⟨0, "", "", false⟩

/-- A remote whose search fails with a generic HTTP 500. -/
def remSearch500 : Remote where
  searchTracks := fun _ _ => .err (.http 500 "Server error")
  getMyCurrentPlaybackState := .ok none
  play := fun _ => .ok ()
  getUserPlaylists := fun _ => .ok ⟨[]⟩
  pause := .ok ()

/-! Helper lemmas shared across claims. -/

theorem Ledger.get_set (led : Ledger) (ep : Endpoint) (v : Int) :
    (led.set ep v).get ep = v := by
  cases ep <;> rfl

theorem mapProject_eq_map (ts : List Track) (h : ∀ t ∈ ts, t.artists ≠ []) :
    mapProject ts = some (ts.map projectTrackTotal) := by
  induction ts with
  | nil => rfl
  | cons t ts ih =>
      have ht := h t (List.mem_cons_self t ts)
      have hrest : ∀ u ∈ ts, u.artists ≠ [] := fun u hu =>
        h u (List.mem_cons_of_mem t hu)
      cases harts : t.artists with
      | nil => exact absurd harts ht
      | cons a rest =>
          simp [mapProject, projectTrack, projectTrackTotal, harts, ih hrest]

/-- C4: a governed operation failing with statusCode 429 sets the
class reset time to the entry time plus the 60 second penalty, throws
McpError InvalidRequest carrying the retry-after duration in its
message, and the operation is invoked exactly once (no auto-retry). -/
theorem withRateLimit_429_spec {α : Type} (ep : Endpoint) (now : Int)
    (led : Ledger) (e : SpotifyError) (h : e.statusCode? = some 429) :
    withRateLimit ep now led (OpOutcome.err e : OpOutcome α) =
      ⟨led.set ep (now + 60 * 1000),
       if now < led.get ep then led.get ep + 1000 else now, 1,
       .error (.mcp .InvalidRequest
         ("Rate limit exceeded for " ++ ep.name ++
          ". Please try again in 1 minute."))⟩ := by
  simp [withRateLimit, h]

/-- C4 witness: the 429 path evaluated on the playback class at a
concrete input. -/
theorem withRateLimit_429_witness :
    (SpotifyError.http 429 "Too Many Requests").statusCode? = some 429 ∧
    withRateLimit .playback 0 ledger0
        (OpOutcome.err (.http 429 "Too Many Requests") : OpOutcome Unit) =
      ⟨⟨0, 60000⟩, 0, 1,
       .error (.mcp .InvalidRequest
         "Rate limit exceeded for playback. Please try again in 1 minute.")⟩ := by
  refine ⟨rfl, ?_⟩
  rw [withRateLimit_429_spec Endpoint.playback 0 ledger0
    (SpotifyError.http 429 "Too Many Requests") rfl]
  decide

/-- C5 counterexample: a successful governed call does not always
advance nextAllowedAt.  With the search class under a 60 second
penalty (reset time 60000) a call entering at 5000 waits until 61000,
succeeds, and then sets the reset time to 15000, strictly below the
previous 60000 — because the update uses the entry time, not the
post-wait time. -/
theorem withRateLimit_advance_counterexample :
    (⟨60000, 0⟩ : Ledger).get .search = 60000 ∧
    withRateLimit .search 5000 ⟨60000, 0⟩ (OpOutcome.ok () : OpOutcome Unit) =
      ⟨⟨15000, 0⟩, 61000, 1, .ok ()⟩ ∧
    (15000 : Int) < 60000 := by
  decide

/-- C5 (amended): withRateLimit checks the ledger first and, when the
entry time is before the class reset time, invokes the operation only
at resetTime + 1000 (the 1 second buffer); the operation is invoked
exactly once; on success the class reset time is set to the entry time
plus the 10 second cooldown — an advance whenever the call did not
have to wait — and the result is returned unchanged; any failure
without statusCode 429 propagates unchanged and leaves the ledger
untouched. -/
theorem withRateLimit_execute_spec {α : Type} (ep : Endpoint) (now : Int)
    (led : Ledger) (op : OpOutcome α) :
    (withRateLimit ep now led op).calls = 1 ∧
    (withRateLimit ep now led op).invokeTime =
      (if now < led.get ep then led.get ep + 1000 else now) ∧
    (∀ a, op = .ok a →
      (withRateLimit ep now led op).outcome = .ok a ∧
      (withRateLimit ep now led op).ledger = led.set ep (now + 10 * 1000) ∧
      (led.get ep ≤ now →
        led.get ep < (withRateLimit ep now led op).ledger.get ep)) ∧
    (∀ e, op = .err e → e.statusCode? ≠ some 429 →
      (withRateLimit ep now led op).outcome = .error e ∧
      (withRateLimit ep now led op).ledger = led) := by
  refine ⟨?_, ?_, ?_, ?_⟩
  · cases op with
    | ok a => rfl
    | err e =>
        by_cases h : e.statusCode? = some 429 <;> simp [withRateLimit, h]
  · cases op with
    | ok a => rfl
    | err e =>
        by_cases h : e.statusCode? = some 429 <;> simp [withRateLimit, h]
  · rintro a rfl
    refine ⟨rfl, rfl, fun hle => ?_⟩
    rw [show (withRateLimit ep now led (OpOutcome.ok a)).ledger =
      led.set ep (now + 10 * 1000) from rfl, Ledger.get_set]
    omega
  · rintro e rfl h
    simp [withRateLimit, h]

/-- C5 witness: the amended specification evaluated on a concrete
waiting success, discharging the hypotheses of its inner conjuncts. -/
theorem withRateLimit_execute_witness :
    (withRateLimit .search 12000 ⟨10000, 0⟩
      (OpOutcome.ok () : OpOutcome Unit)).calls = 1 ∧
    (withRateLimit .search 12000 ⟨10000, 0⟩
      (OpOutcome.ok () : OpOutcome Unit)).invokeTime = 12000 ∧
    (withRateLimit .search 12000 ⟨10000, 0⟩
      (OpOutcome.ok () : OpOutcome Unit)).outcome = .ok () ∧
    (10000 : Int) <
      (withRateLimit .search 12000 ⟨10000, 0⟩
        (OpOutcome.ok () : OpOutcome Unit)).ledger.get .search := by
  have h := withRateLimit_execute_spec Endpoint.search 12000 ⟨10000, 0⟩
    (OpOutcome.ok () : OpOutcome Unit)
  have hok := h.2.2.1 () rfl
  refine ⟨h.1, ?_, hok.1, hok.2.2 (by decide)⟩
  rw [h.2.1]
  decide

/-- C3 counterexample: the ledger value is not non-decreasing across
every sequence of governed calls.  From the startup ledger, a search
call at time 0 rejected with 429 sets nextAllowedAt to 60000; a second
call entering at 5000 waits out the penalty, succeeds, and sets
nextAllowedAt to 15000 — a strict decrease, because the cooldown
update uses the entry time captured before the wait. -/
theorem rateLimit_monotone_counterexample :
    runCalls .search ledger0
        [(0, .err (.http 429 "Too Many Requests")), (5000, .ok ())] =
      [60000, 15000] ∧
    ¬ (60000 : Int) ≤ 15000 := by
  decide

/-- C3 (amended): nextAllowedAt is non-decreasing across any sequence
of governed calls in which every call enters no earlier than 10
seconds before the end of the cooldown then pending for its class — in
particular across any sequence in which no call has to wait.  A
successful call that entered earlier than that inside a 60 second
penalty moves nextAllowedAt backward. -/
theorem rateLimit_monotone_amended (ep : Endpoint)
    (evs : List (Int × OpOutcome Unit)) (led : Ledger)
    (h : withinCooldownSlack ep led evs) :
    List.Chain' (· ≤ ·) (led.get ep :: runCalls ep led evs) := by
  induction evs generalizing led with
  | nil => simp [runCalls]
  | cons e rest ih =>
      obtain ⟨now, op⟩ := e
      simp only [withinCooldownSlack] at h
      obtain ⟨h1, h2⟩ := h
      have hstep : led.get ep ≤ (withRateLimit ep now led op).ledger.get ep := by
        cases op with
        | ok a =>
            rw [show (withRateLimit ep now led (OpOutcome.ok a)).ledger =
              led.set ep (now + 10 * 1000) from rfl, Ledger.get_set]
            omega
        | err e =>
            by_cases h429 : e.statusCode? = some 429
            · rw [show (withRateLimit ep now led (OpOutcome.err e)).ledger =
                led.set ep (now + 60 * 1000) by simp [withRateLimit, h429],
                Ledger.get_set]
              omega
            · rw [show (withRateLimit ep now led (OpOutcome.err e)).ledger =
                led by simp [withRateLimit, h429]]
      simp only [runCalls]
      rw [List.chain'_cons]
      exact ⟨hstep, ih _ h2⟩

/-- C3 witness: a concrete two-call no-wait sequence with a
non-decreasing trace. -/
theorem rateLimit_monotone_witness :
    withinCooldownSlack .search ledger0 [(0, .ok ()), (12000, .ok ())] ∧
    List.Chain' (· ≤ ·)
      (ledger0.get .search ::
        runCalls .search ledger0 [(0, .ok ()), (12000, .ok ())]) := by
  have hyp : withinCooldownSlack .search ledger0
      [(0, .ok ()), (12000, .ok ())] :=
    ⟨by decide, by decide, trivial⟩
  exact ⟨hyp, rateLimit_monotone_amended .search _ ledger0 hyp⟩

/-- C6: ensureValidToken is idempotent on a fresh token — when now is
strictly before tokenExpirationTime minus the 5 minute margin, one
call (and a second immediately after it) performs zero refresh and
zero grant exchanges and leaves the credential state unchanged; and on
a stale token with a refresh token present whose exchange is accepted
it performs exactly one silent refresh and no interactive grant,
installing the refreshed token with expiration
now + expires_in * 1000 - 60000. -/
theorem ensureValidToken_fresh_idempotent (now : Int) (st : TokenState)
    (r : RefreshOutcome) (g : GrantOutcome) :
    (now < st.tokenExpirationTime - 5 * 60 * 1000 →
      ensureValidToken now st r g = ⟨st, 0, 0, .ok ()⟩ ∧
      ensureValidToken now (ensureValidToken now st r g).state r g =
        ⟨st, 0, 0, .ok ()⟩) ∧
    (st.tokenExpirationTime - 5 * 60 * 1000 ≤ now →
      st.hasRefreshToken = true →
      ∀ tok expiresIn, r = .ok tok expiresIn →
        ensureValidToken now st r g =
          ⟨{ st with
              accessToken := tok
              tokenExpirationTime := now + expiresIn * 1000 - 60000 },
            1, 0, .ok ()⟩) := by
  constructor
  · intro hfresh
    have hc : ¬ (st.tokenExpirationTime - 5 * 60 * 1000 ≤ now) := by omega
    have h1 : ensureValidToken now st r g = ⟨st, 0, 0, .ok ()⟩ := by
      unfold ensureValidToken
      rw [if_neg hc]
    refine ⟨h1, ?_⟩
    rw [h1]
    exact h1
  · intro hstale hrt tok expiresIn hr
    subst hr
    unfold ensureValidToken
    rw [if_pos hstale, if_pos hrt]

/-- C6 witness: a fresh token untouched, and a stale token refreshed
exactly once with no grant, at concrete inputs. -/
theorem ensureValidToken_witness :
    ensureValidToken 0 ⟨1000000, "acc", "ref", true⟩ refreshOk grantOk =
      ⟨⟨1000000, "acc", "ref", true⟩, 0, 0, .ok ()⟩ ∧
    ensureValidToken 1000000 staleState refreshOk grantOk =
      ⟨⟨4540000, "newAccess", "refresh1", true⟩, 1, 0, .ok ()⟩ := by
  constructor
  · exact ((ensureValidToken_fresh_idempotent 0 ⟨1000000, "acc", "ref", true⟩
      refreshOk grantOk).1 (by decide)).1
  · have h := (ensureValidToken_fresh_idempotent 1000000 staleState
      refreshOk grantOk).2 (by decide) rfl "newAccess" 3600 rfl
    rw [h]
    decide

/-- C7: a search_tracks call whose governed search succeeds (and whose
remote honors the limit 5 passed by the dispatcher, every returned
track having at least one artist) responds with exactly the ordered
element-wise seven-field projection (name, artist, albumName,
releaseDate, popularity, id, uri) of the remote items — the remote
relevance order is preserved — and the summary list has at most 5
entries; the governed search operation is invoked exactly once. -/
theorem searchTracks_projection (st : TokenState) (led : Ledger) (now : Int)
    (r : RefreshOutcome) (g : GrantOutcome) (rem : Remote) (args : Args)
    (page : TracksPage)
    (hok : (ensureValidToken now st r g).outcome = .ok ())
    (hs : rem.searchTracks args.query 5 = .ok ⟨some page⟩)
    (hlen : page.items.length ≤ 5)
    (hart : ∀ t ∈ page.items, t.artists ≠ []) :
    (callTool ⟨"search_tracks", some args⟩ st led now r g rem).response =
      .ok (.trackList (page.items.map projectTrackTotal)) ∧
    (page.items.map projectTrackTotal).length ≤ 5 ∧
    (callTool ⟨"search_tracks", some args⟩ st led now r g rem).governedCalls = 1 := by
  have hmap := mapProject_eq_map page.items hart
  refine ⟨?_, ?_, ?_⟩
  · simp only [callTool, hok, hs, withRateLimit, hmap]
    simp
  · simpa using hlen
  · simp only [callTool, hok, hs, withRateLimit, hmap]
    simp

/-- C7 witness: the projection theorem evaluated on a concrete
one-track search. -/
theorem searchTracks_projection_witness :
    (callTool ⟨"search_tracks", some ⟨some "Beatles", none, none⟩⟩ staleState
        ledger0 1000000 refreshOk grantOk remOneTrack).response =
      .ok (.trackList [⟨"Let It Be", "The Beatles", "Let It Be", "1970-05-08",
        82, "7iN1s7xHE4ifF5povM6A48", "spotify:track:7iN1s7xHE4ifF5povM6A48"⟩]) ∧
    (callTool ⟨"search_tracks", some ⟨some "Beatles", none, none⟩⟩ staleState
        ledger0 1000000 refreshOk grantOk remOneTrack).governedCalls = 1 := by
  have h := searchTracks_projection staleState ledger0 1000000 refreshOk grantOk
    remOneTrack ⟨some "Beatles", none, none⟩ ⟨[beatlesTrack]⟩
    (by decide) rfl (by decide) (by decide)
  refine ⟨?_, h.2.2⟩
  rw [h.1]
  decide

/-- C1 counterexample: a search_tracks call whose argument bag lacks
query does not produce an InvalidArgumentError and is not rejected
before the credential check.  On a stale credential state the
dispatcher first performs a refresh exchange (a credential side
effect), then issues the governed search with the undefined query,
mutates the Rate Limit Ledger, and the call even succeeds. -/
theorem callTool_missingQuery_counterexample :
    missingQueryRun.refreshCalls = 1 ∧
    missingQueryRun.governedCalls = 1 ∧
    missingQueryRun.ledger = ⟨1010000, 0⟩ ∧
    missingQueryRun.state ≠ staleState ∧
    missingQueryRun.response = .ok (.trackList []) := by
  decide

/-- C1 (amended): callTool performs no argument validation.  The
credential check runs first — its refresh and grant side effects
happen whatever the arguments are — and a search_tracks call with a
present argument bag lacking query forwards the undefined query to the
governed search operation, which is invoked once and updates the
ledger as any governed call; no InvalidParams error is ever produced
on this path. -/
theorem callTool_noArgValidation (st : TokenState) (led : Ledger) (now : Int)
    (r : RefreshOutcome) (g : GrantOutcome) (rem : Remote) (args : Args)
    (body : SearchBody)
    (hq : args.query = none)
    (hok : (ensureValidToken now st r g).outcome = .ok ())
    (hs : rem.searchTracks none 5 = .ok body) :
    (callTool ⟨"search_tracks", some args⟩ st led now r g rem).refreshCalls =
      (ensureValidToken now st r g).refreshCalls ∧
    (callTool ⟨"search_tracks", some args⟩ st led now r g rem).grantCalls =
      (ensureValidToken now st r g).grantCalls ∧
    (callTool ⟨"search_tracks", some args⟩ st led now r g rem).governedCalls = 1 ∧
    (callTool ⟨"search_tracks", some args⟩ st led now r g rem).ledger =
      led.set .search (now + 10 * 1000) ∧
    ∀ m, (callTool ⟨"search_tracks", some args⟩ st led now r g rem).response ≠
      .error (.mcp .InvalidParams m) := by
  rcases body with ⟨tracks⟩
  cases tracks with
  | none =>
      simp only [callTool, hok, hq, hs, withRateLimit]
      simp
  | some page =>
      cases hmp : mapProject page.items with
      | some l =>
          simp only [callTool, hok, hq, hs, withRateLimit, hmp]
          simp
      | none =>
          simp only [callTool, hok, hq, hs, withRateLimit, hmp]
          simp [wrapError, SpotifyError.message]

/-- C1 witness: the amended statement evaluated on the concrete
missing-query run. -/
theorem callTool_noArgValidation_witness :
    missingQueryRun.refreshCalls = 1 ∧
    missingQueryRun.governedCalls = 1 ∧
    missingQueryRun.response ≠ .error (.mcp .InvalidParams "Missing query") := by
  have h := callTool_noArgValidation staleState ledger0 1000000 refreshOk
    grantOk remEmptyOk ⟨none, none, none⟩ ⟨some ⟨[]⟩⟩ rfl (by decide) rfl
  exact ⟨h.1.trans (by decide), h.2.2.1, h.2.2.2.2 "Missing query"⟩

/-- C2 counterexample: an unknown tool name is not rejected before the
credential check.  On a stale credential state the dispatcher first
performs a refresh exchange (refreshCalls = 1) and only then rejects
the name with UnknownToolError; so step 1 does not precede step 3,
although no governed remote operation is issued. -/
theorem callTool_unknown_counterexample :
    unknownToolRun.refreshCalls = 1 ∧
    unknownToolRun.governedCalls = 0 ∧
    unknownToolRun.response =
      .error (.mcp .MethodNotFound "Unknown tool: foo_bar") := by
  decide

/-- C2 (amended): for every tool name outside the closed catalogue,
when the credential check completes, callTool throws McpError
MethodNotFound (UnknownToolError) naming the tool, issues no governed
remote operation and leaves the ledger unchanged — but the credential
check runs first, so its refresh or grant exchanges do occur. -/
theorem callTool_unknown_spec (st : TokenState) (led : Ledger) (now : Int)
    (r : RefreshOutcome) (g : GrantOutcome) (rem : Remote)
    (toolName : String) (args : Option Args)
    (hok : (ensureValidToken now st r g).outcome = .ok ())
    (h1 : toolName ≠ "search_tracks") (h2 : toolName ≠ "get_playback_state")
    (h3 : toolName ≠ "play_track") (h4 : toolName ≠ "get_user_playlists")
    (h5 : toolName ≠ "pause_playback") :
    callTool ⟨toolName, args⟩ st led now r g rem =
      ⟨(ensureValidToken now st r g).state, led,
       (ensureValidToken now st r g).refreshCalls,
       (ensureValidToken now st r g).grantCalls, 0,
       .error (.mcp .MethodNotFound ("Unknown tool: " ++ toolName))⟩ := by
  simp only [callTool, hok]
  simp [h1, h2, h3, h4, h5]

/-- C2 witness: the amended statement evaluated on the concrete
unknown-tool run. -/
theorem callTool_unknown_spec_witness :
    unknownToolRun.ledger = ledger0 ∧
    unknownToolRun.refreshCalls = 1 ∧
    unknownToolRun.grantCalls = 0 := by
  unfold unknownToolRun
  rw [callTool_unknown_spec staleState ledger0 1000000 refreshOk grantOk
    remEmptyOk "foo_bar" (some ⟨none, none, none⟩) (by decide) (by decide)
    (by decide) (by decide) (by decide) (by decide)]
  exact ⟨by decide, by decide, by decide⟩

/-- C8 counterexample: two ensureValidToken calls interleaved at the
await point of the refresh exchange (A checks, B checks, A completes
its refresh, B completes its refresh) perform two refresh exchanges on
one stale token, not exactly one: the code has no single-flight
guard. -/
theorem singleFlight_counterexample :
    runTwo 1000000 4540000 [true, false, true, false] ⟨0, 0, .start, .start⟩ =
      ⟨4540000, 2, .finished, .finished⟩ ∧
    ¬ (2 : Nat) = 1 := by
  decide

/-- C8 (amended): the refresh path is not single-flight.  Two
concurrent ensureValidToken calls on a stale token whose staleness
checks both run before either refresh exchange completes perform two
refresh exchanges; only when the second call checks after the first
refresh has installed a fresh expiration does a single exchange
occur. -/
theorem singleFlight_amended (now exp newExp : Int)
    (hstale : exp - 5 * 60 * 1000 ≤ now)
    (hfresh : ¬ (newExp - 5 * 60 * 1000 ≤ now)) :
    (runTwo now newExp [true, false, true, false]
      ⟨exp, 0, .start, .start⟩).refreshCalls = 2 ∧
    (runTwo now newExp [true, true, false, false]
      ⟨exp, 0, .start, .start⟩).refreshCalls = 1 := by
  have d1 : decide (exp - 5 * 60 * 1000 ≤ now) = true := decide_eq_true hstale
  have d2 : decide (newExp - 5 * 60 * 1000 ≤ now) = false := decide_eq_false hfresh
  constructor <;> simp only [runTwo, stepTask, d1, d2] <;> simp

/-- C8 witness: the amended statement at the concrete stale input of
the counterexample schedule. -/
theorem singleFlight_amended_witness :
    (runTwo 1000000 4540000 [true, false, true, false]
      ⟨0, 0, .start, .start⟩).refreshCalls = 2 ∧
    (runTwo 1000000 4540000 [true, true, false, false]
      ⟨0, 0, .start, .start⟩).refreshCalls = 1 :=
  singleFlight_amended 1000000 0 4540000 (by decide) (by decide)

/-- C9 counterexample: with all three environment variables unset the
client is still constructed — the identifier and secret are silently
substituted by the empty string and the redirect URI by
http://localhost:8888/callback — instead of surfacing a startup
failure. -/
theorem config_missing_counterexample :
    spotifyApiConfig ⟨none, none, none⟩ =
      ⟨"", "", "http://localhost:8888/callback"⟩ := by
  decide

/-- C9 (amended): configuration loading is total and never fails at
startup: a missing client identifier or secret is silently replaced by
the empty string, a missing redirect URI by the localhost callback
default, and a present variable is passed through unchanged.  Missing
configuration surfaces only later, when the remote service rejects the
empty credentials. -/
theorem config_defaults (env : Env) :
    (env.SPOTIFY_CLIENT_ID = none → (spotifyApiConfig env).clientId = "") ∧
    (∀ s, env.SPOTIFY_CLIENT_ID = some s → (spotifyApiConfig env).clientId = s) ∧
    (env.SPOTIFY_CLIENT_SECRET = none → (spotifyApiConfig env).clientSecret = "") ∧
    (∀ s, env.SPOTIFY_CLIENT_SECRET = some s →
      (spotifyApiConfig env).clientSecret = s) ∧
    (env.SPOTIFY_REDIRECT_URI = none →
      (spotifyApiConfig env).redirectUri = "http://localhost:8888/callback") ∧
    (∀ s, env.SPOTIFY_REDIRECT_URI = some s →
      (spotifyApiConfig env).redirectUri = s) := by
  refine ⟨fun h => ?_, fun s h => ?_, fun h => ?_, fun s h => ?_,
    fun h => ?_, fun s h => ?_⟩ <;>
    simp [spotifyApiConfig, h]

/-- C9 witness: the amended statement at a concrete environment with
only the secret set. -/
theorem config_defaults_witness :
    (spotifyApiConfig ⟨none, some "secret9", none⟩).clientId = "" ∧
    (spotifyApiConfig ⟨none, some "secret9", none⟩).clientSecret = "secret9" ∧
    (spotifyApiConfig ⟨none, some "secret9", none⟩).redirectUri =
      "http://localhost:8888/callback" :=
  ⟨(config_defaults ⟨none, some "secret9", none⟩).1 rfl,
   (config_defaults ⟨none, some "secret9", none⟩).2.2.2.1 "secret9" rfl,
   (config_defaults ⟨none, some "secret9", none⟩).2.2.2.2.1 rfl⟩

/-- C10: every error raised inside a tool call that is not already an
McpError is re-wrapped into a single McpError InternalError envelope
whose message is the Spotify API error prefix followed by the original
message: a failed interactive grant (the ensureValidToken outcome
being a JS error), the TypeError from destructuring an absent argument
bag, and a generic non-429 remote failure all produce the same kind
and are indistinguishable by kind alone. -/
theorem errors_wrapped_uniformly (st : TokenState) (led : Ledger) (now : Int)
    (r : RefreshOutcome) (rem : Remote) :
    (∀ (req : Request) (g : GrantOutcome) (msg : String),
      (ensureValidToken now st r g).outcome = .error (.js msg) →
      (callTool req st led now r g rem).response =
        .error (.mcp .InternalError ("Spotify API error: " ++ msg))) ∧
    (∀ g : GrantOutcome, (ensureValidToken now st r g).outcome = .ok () →
      (callTool ⟨"search_tracks", none⟩ st led now r g rem).response =
        .error (.mcp .InternalError
          ("Spotify API error: " ++ "Cannot destructure property"))) ∧
    (∀ (g : GrantOutcome) (args : Args) (sc : Int) (msg : String),
      (ensureValidToken now st r g).outcome = .ok () →
      sc ≠ 429 →
      rem.searchTracks args.query 5 = .err (.http sc msg) →
      (callTool ⟨"search_tracks", some args⟩ st led now r g rem).response =
        .error (.mcp .InternalError ("Spotify API error: " ++ msg))) := by
  refine ⟨?_, ?_, ?_⟩
  · intro req g msg h
    simp only [callTool, h]
    simp [wrapError, SpotifyError.message]
  · intro g hok
    simp only [callTool, hok]
    simp [wrapError, SpotifyError.message]
  · intro g args sc msg hok hsc hs
    simp only [callTool, hok, hs, withRateLimit]
    simp [wrapError, SpotifyError.message, SpotifyError.statusCode?, hsc]

/-- C10 witness: the three wrap paths evaluated at concrete inputs —
a failed grant, an absent argument bag, and an HTTP 500 from the
governed search — all yield McpError InternalError with the prefixed
message. -/
theorem errors_wrapped_witness :
    (callTool ⟨"pause_playback", some ⟨none, none, none⟩⟩ noTokenState
      ledger0 1000000 refreshOk (.err (.js "listen EADDRINUSE"))
      remEmptyOk).response =
      .error (.mcp .InternalError "Spotify API error: listen EADDRINUSE") ∧
    (callTool ⟨"search_tracks", none⟩ staleState ledger0 1000000 refreshOk
      grantOk remEmptyOk).response =
      .error (.mcp .InternalError
        "Spotify API error: Cannot destructure property") ∧
    (callTool ⟨"search_tracks", some ⟨some "q", none, none⟩⟩ staleState
      ledger0 1000000 refreshOk grantOk remSearch500).response =
      .error (.mcp .InternalError "Spotify API error: Server error") := by
  have h := errors_wrapped_uniformly noTokenState ledger0 1000000 refreshOk
    remEmptyOk
  have h2 := errors_wrapped_uniformly staleState ledger0 1000000 refreshOk
    remEmptyOk
  have h3 := errors_wrapped_uniformly staleState ledger0 1000000 refreshOk
    remSearch500
  refine ⟨?_, ?_, ?_⟩
  · rw [h.1 ⟨"pause_playback", some ⟨none, none, none⟩⟩
      (.err (.js "listen EADDRINUSE")) "listen EADDRINUSE" (by decide)]
    decide
  · rw [h2.2.1 grantOk (by decide)]
    decide
  · rw [h3.2.2 grantOk ⟨some "q", none, none⟩ 500 "Server error" (by decide)
      (by decide) rfl]
    decide
